import Mathlib

/-!
# Verification of the `better_llm_sizer` estimation engine

Shallow embedding of `src/GPU-sizer/v2/better_llm_sizer/calculator.py`
(class `PerformanceCalculator`) and the descriptor types of
`src/GPU-sizer/v2/better_llm_sizer/specs.py`.

Python floats are modelled by `ℚ`; Python `int` fields by `ℤ`.
A Python division that can raise `ZeroDivisionError` is modelled by
`pydiv`, returning `Option ℚ`; operations whose body contains such a
division are `Option`-valued, `none` standing for a raised exception.
-/

namespace LLMSizer

/-- `BYTES_IN_GiB = 1_073_741_824` from `calculator.py`. -/
def BYTES_IN_GiB : ℚ := 1073741824

/-- `ModelSpec` of `specs.py`, numeric fields only (the string fields
`name`, `hub`, `provider`, `model_type` and the unused `size_gb` play no
role in the engine). -/
structure ModelSpec where
  params_billion : ℚ
  d_model : ℤ
  n_heads : ℤ
  n_kv_heads : ℤ
  n_layers : ℤ
  max_context_window : ℤ
deriving DecidableEq, Repr

/-- `GPUSpec` of `specs.py`, numeric fields only. -/
structure GPUSpec where
  fp16_tflops : ℚ
  memory_gb : ℤ
  memory_bandwidth_gbps : ℤ
deriving DecidableEq, Repr

/-- `PrecisionSpec` of `specs.py`. -/
structure PrecisionSpec where
  weight_bytes : ℚ
  kv_bytes : ℚ
deriving DecidableEq, Repr

/-- The configuration held by `PerformanceCalculator.__init__`. -/
structure PerformanceCalculator where
  num_gpu : ℤ
  precision : PrecisionSpec
deriving DecidableEq, Repr

/-- A timing/throughput field of `PerformanceMetrics`:
`Union[float, str]` where the only string ever stored is `"OOM"`. -/
inductive MetricValue where
  | num : ℚ → MetricValue
  | OOM : MetricValue
deriving DecidableEq, Repr

/-- `PerformanceMetrics` of `calculator.py`. -/
structure PerformanceMetrics where
  kv_cache_tokens : ℤ
  prefill_time_per_token_ms : MetricValue
  tpot_ms : MetricValue
  ttft_s : MetricValue
  e2e_latency_s : MetricValue
  throughput_tokens_per_s : MetricValue
deriving DecidableEq, Repr

/-- Python division on floats: raises `ZeroDivisionError` when the
divisor is zero, modelled as `none`. -/
def pydiv (a b : ℚ) : Option ℚ :=
  if b = 0 then none else some (a / b)

/-- Python `int(x)` on a float: truncation toward zero. -/
def int_trunc (q : ℚ) : ℤ :=
  if 0 ≤ q then ⌊q⌋ else ⌈q⌉

namespace PerformanceCalculator

/-- `kv_cache_size_per_token_gib`:
`d_head = model.d_model / model.n_heads`;
`(2 * n_layers * n_kv_heads * d_head * kv_bytes) / BYTES_IN_GiB`. -/
def kv_cache_size_per_token_gib (c : PerformanceCalculator) (m : ModelSpec) :
    Option ℚ := do
  let d_head ← pydiv (m.d_model : ℚ) (m.n_heads : ℚ)
  pydiv (2 * (m.n_layers : ℚ) * (m.n_kv_heads : ℚ) * d_head * c.precision.kv_bytes)
    BYTES_IN_GiB

/-- `weights_memory_gb`: `params_billion * weight_bytes`. -/
def weights_memory_gb (c : PerformanceCalculator) (m : ModelSpec) : ℚ :=
  m.params_billion * c.precision.weight_bytes

/-- `total_memory_footprint_gb`:
`kv_per_token_gib * context_window * n_concurrent + weights_memory_gb`. -/
def total_memory_footprint_gb (c : PerformanceCalculator) (m : ModelSpec)
    (n_concurrent context_window : ℤ) : Option ℚ := do
  let kv_per_token_gib ← c.kv_cache_size_per_token_gib m
  pure (kv_per_token_gib * (context_window : ℚ) * (n_concurrent : ℚ) +
    c.weights_memory_gb m)

/-- `max_kv_tokens`: `0` when the per-token KV size is `≤ 0`, otherwise
`int(max(0.0, max(0.0, num_gpu * memory_gb - weights) / kv_per_token))`. -/
def max_kv_tokens (c : PerformanceCalculator) (gpu : GPUSpec) (m : ModelSpec) :
    Option ℤ := do
  let kv_per_token_gib ← c.kv_cache_size_per_token_gib m
  if kv_per_token_gib ≤ 0 then
    pure 0
  else
    let total_mem_gb : ℚ := (c.num_gpu : ℚ) * (gpu.memory_gb : ℚ)
    let usable_gb : ℚ := max 0 (total_mem_gb - c.weights_memory_gb m)
    pure (int_trunc (max 0 (usable_gb / kv_per_token_gib)))

/-- `fits_memory`:
`total_memory_footprint_gb(model, n_concurrent, context_window) <= num_gpu * gpu.memory_gb`. -/
def fits_memory (c : PerformanceCalculator) (gpu : GPUSpec) (m : ModelSpec)
    (n_concurrent context_window : ℤ) : Option Bool := do
  let total ← c.total_memory_footprint_gb m n_concurrent context_window
  pure (decide (total ≤ (c.num_gpu : ℚ) * (gpu.memory_gb : ℚ)))

/-- `prefill_time_per_token_ms`:
`(2 * params_billion / max(1, num_gpu)) / gpu.fp16_tflops`. -/
def prefill_time_per_token_ms (c : PerformanceCalculator) (m : ModelSpec)
    (gpu : GPUSpec) : Option ℚ := do
  let sharded ← pydiv (2 * m.params_billion) ((max 1 c.num_gpu : ℤ) : ℚ)
  pydiv sharded gpu.fp16_tflops

/-- `tpot_ms`:
`(2 * params_billion / max(1, num_gpu)) / max(1e-9, memory_bandwidth_gbps) * 1000`. -/
def tpot_ms (c : PerformanceCalculator) (m : ModelSpec) (gpu : GPUSpec) :
    Option ℚ := do
  let sharded ← pydiv (2 * m.params_billion) ((max 1 c.num_gpu : ℤ) : ℚ)
  let per_gb ← pydiv sharded (max (1 / 1000000000) (gpu.memory_bandwidth_gbps : ℚ))
  pure (per_gb * 1000)

/-- `e2e_latency_s`:
`(prompt_tokens * prefill_ms + response_tokens * tpot_ms) / 1000.0`. -/
def e2e_latency_s (prefill_ms tpot_ms : ℚ) (prompt_tokens response_tokens : ℤ) : ℚ :=
  ((prompt_tokens : ℚ) * prefill_ms + (response_tokens : ℚ) * tpot_ms) / 1000

/-- `ttft_s`: `(prompt_tokens * prefill_ms + tpot_ms) / 1000.0`. -/
def ttft_s (prefill_ms tpot_ms : ℚ) (prompt_tokens : ℤ) : ℚ :=
  ((prompt_tokens : ℚ) * prefill_ms + tpot_ms) / 1000

/-- `compute_metrics` of `calculator.py`. -/
def compute_metrics (c : PerformanceCalculator) (m : ModelSpec) (gpu : GPUSpec)
    (prompt_tokens response_tokens : ℤ) : Option PerformanceMetrics := do
  let kv_tokens ← c.max_kv_tokens gpu m
  let prefill_ms ← c.prefill_time_per_token_ms m gpu
  let tpot ← c.tpot_ms m gpu
  if prefill_ms < 0 ∨ tpot < 0 then
    pure { kv_cache_tokens := kv_tokens
           prefill_time_per_token_ms := MetricValue.OOM
           tpot_ms := MetricValue.OOM
           ttft_s := MetricValue.OOM
           e2e_latency_s := MetricValue.OOM
           throughput_tokens_per_s := MetricValue.OOM }
  else
    let ttft := ttft_s prefill_ms tpot prompt_tokens
    let e2e := e2e_latency_s prefill_ms tpot prompt_tokens response_tokens
    let thr : MetricValue :=
      if e2e > 0 then MetricValue.num ((response_tokens : ℚ) / e2e)
      else MetricValue.OOM
    pure { kv_cache_tokens := kv_tokens
           prefill_time_per_token_ms := MetricValue.num prefill_ms
           tpot_ms := MetricValue.num tpot
           ttft_s := MetricValue.num ttft
           e2e_latency_s := MetricValue.num e2e
           throughput_tokens_per_s := thr }

end PerformanceCalculator

open PerformanceCalculator MetricValue

/-- Closed form of the per-token KV-cache size when `n_heads ≠ 0`
(the only case where the Python code does not raise). -/
theorem kv_cache_eq_of_heads_ne_zero (c : PerformanceCalculator) (m : ModelSpec)
    (h : m.n_heads ≠ 0) :
    c.kv_cache_size_per_token_gib m =
      some ((2 * (m.n_layers : ℚ) * (m.n_kv_heads : ℚ) *
        ((m.d_model : ℚ) / (m.n_heads : ℚ)) * c.precision.kv_bytes) / BYTES_IN_GiB) := by
  have h1 : (m.n_heads : ℚ) ≠ 0 := Int.cast_ne_zero.mpr h
  simp [PerformanceCalculator.kv_cache_size_per_token_gib, pydiv, h1, BYTES_IN_GiB]

/-- Closed form of the total memory footprint, given the per-token KV size. -/
theorem footprint_eq (c : PerformanceCalculator) (m : ModelSpec)
    (nc cw : ℤ) (kvq : ℚ) (hkv : c.kv_cache_size_per_token_gib m = some kvq) :
    c.total_memory_footprint_gb m nc cw =
      some (kvq * (cw : ℚ) * (nc : ℚ) + c.weights_memory_gb m) := by
  simp [PerformanceCalculator.total_memory_footprint_gb, hkv]

/-- Claim C1: `fits_memory` returns `true` exactly when the total memory
footprint is at most `num_gpu * gpu.memory_gb`; in particular, when the
footprint equals the capacity exactly, the result is `true`. -/
theorem C1_fits_memory_iff_footprint_le (c : PerformanceCalculator) (gpu : GPUSpec)
    (m : ModelSpec) (nc cw : ℤ) (f : ℚ)
    (hf : c.total_memory_footprint_gb m nc cw = some f) :
    (c.fits_memory gpu m nc cw = some true ↔ f ≤ (c.num_gpu : ℚ) * (gpu.memory_gb : ℚ)) ∧
    (f = (c.num_gpu : ℚ) * (gpu.memory_gb : ℚ) → c.fits_memory gpu m nc cw = some true) := by
  constructor
  · simp [PerformanceCalculator.fits_memory, hf]
  · intro he
    simp [PerformanceCalculator.fits_memory, hf, he]

/-- Witness for C1 at Scenario A with footprint `16 ≤ 24`. -/
theorem C1_witness :
    ((PerformanceCalculator.fits_memory ⟨1, ⟨2, 2⟩⟩ ⟨121, 24, 300⟩
        ⟨7, 4096, 32, 32, 32, 16384⟩ 1 4096 = some true ↔
      (16 : ℚ) ≤ ((1 : ℤ) : ℚ) * ((24 : ℤ) : ℚ)) ∧
     ((16 : ℚ) = ((1 : ℤ) : ℚ) * ((24 : ℤ) : ℚ) →
      PerformanceCalculator.fits_memory ⟨1, ⟨2, 2⟩⟩ ⟨121, 24, 300⟩
        ⟨7, 4096, 32, 32, 32, 16384⟩ 1 4096 = some true)) :=
  C1_fits_memory_iff_footprint_le ⟨1, ⟨2, 2⟩⟩ ⟨121, 24, 300⟩
    ⟨7, 4096, 32, 32, 32, 16384⟩ 1 4096 16 (by
    simp [PerformanceCalculator.total_memory_footprint_gb,
      PerformanceCalculator.kv_cache_size_per_token_gib,
      PerformanceCalculator.weights_memory_gb, pydiv, BYTES_IN_GiB]
    norm_num)

/-- Claim C2, counterexample: for a 100-billion-parameter model at 2 bytes
per weight on a single 24 GB GPU, the per-token KV size is positive, yet
`max_kv_tokens` returns `0` and `0 * kv_per_token = 0` exceeds the
unclamped difference `1 * 24 - 200 = -176`: the claim's bound against the
unclamped difference fails. -/
theorem C2_counterexample :
    PerformanceCalculator.kv_cache_size_per_token_gib ⟨1, ⟨2, 2⟩⟩
      ⟨100, 4096, 32, 32, 32, 16384⟩ = some (1 / 2048) ∧
    (0 : ℚ) < 1 / 2048 ∧
    PerformanceCalculator.max_kv_tokens ⟨1, ⟨2, 2⟩⟩ ⟨121, 24, 300⟩
      ⟨100, 4096, 32, 32, 32, 16384⟩ = some 0 ∧
    ¬(((0 : ℤ) : ℚ) * (1 / 2048) ≤
      (((1 : ℤ) : ℚ)) * (((24 : ℤ) : ℚ)) -
        PerformanceCalculator.weights_memory_gb ⟨1, ⟨2, 2⟩⟩
          ⟨100, 4096, 32, 32, 32, 16384⟩) := by
  refine ⟨?_, by norm_num, ?_, ?_⟩
  · simp [PerformanceCalculator.kv_cache_size_per_token_gib, pydiv, BYTES_IN_GiB]
    norm_num
  · simp [PerformanceCalculator.max_kv_tokens,
      PerformanceCalculator.kv_cache_size_per_token_gib,
      PerformanceCalculator.weights_memory_gb, pydiv, BYTES_IN_GiB, int_trunc]
    norm_num
  · simp [PerformanceCalculator.weights_memory_gb]
    norm_num

/-- Claim C2, amended: `max_kv_tokens` returns `0` whenever the per-token
KV size is `≤ 0`, and otherwise the product of the returned token count
with the per-token size never exceeds the clamped difference
`max 0 (num_gpu * gpu.memory_gb - weights_memory_gb)` (the code clamps the
usable memory at zero before dividing, so the bound holds against the
clamped difference, not the unclamped one). -/
theorem C2_max_kv_tokens_bound (c : PerformanceCalculator) (gpu : GPUSpec)
    (m : ModelSpec) (kvq : ℚ) (k : ℤ)
    (hkv : c.kv_cache_size_per_token_gib m = some kvq)
    (hk : c.max_kv_tokens gpu m = some k) :
    (kvq ≤ 0 → k = 0) ∧
    (0 < kvq → (k : ℚ) * kvq ≤
      max 0 ((c.num_gpu : ℚ) * (gpu.memory_gb : ℚ) - c.weights_memory_gb m)) := by
  simp only [PerformanceCalculator.max_kv_tokens, hkv, Option.bind_eq_bind, Option.some_bind] at hk
  constructor
  · intro hle
    rw [if_pos hle] at hk
    simpa using hk.symm
  · intro hpos
    rw [if_neg (not_le.mpr hpos)] at hk
    simp only [pure, Option.some_inj] at hk
    subst hk
    set usable : ℚ := max 0 ((c.num_gpu : ℚ) * (gpu.memory_gb : ℚ) - c.weights_memory_gb m) with husable
    have husable_nonneg : 0 ≤ usable := le_max_left 0 _
    have hq_nonneg : 0 ≤ usable / kvq := div_nonneg husable_nonneg hpos.le
    rw [max_eq_right hq_nonneg, int_trunc, if_pos hq_nonneg]
    calc (⌊usable / kvq⌋ : ℚ) * kvq ≤ (usable / kvq) * kvq :=
          mul_le_mul_of_nonneg_right (Int.floor_le _) hpos.le
      _ = usable := div_mul_cancel₀ usable (ne_of_gt hpos)

/-- Witness for the amended C2 at Scenario A: `20480 * (1/2048) = 10 ≤ max 0 (24 - 14)`. -/
theorem C2_witness :
    (((1 : ℚ) / 2048 ≤ 0 → (20480 : ℤ) = 0) ∧
     (0 < (1 : ℚ) / 2048 → ((20480 : ℤ) : ℚ) * (1 / 2048) ≤
       max 0 ((((1 : ℤ) : ℚ)) * (((24 : ℤ) : ℚ)) -
         PerformanceCalculator.weights_memory_gb ⟨1, ⟨2, 2⟩⟩
           ⟨7, 4096, 32, 32, 32, 16384⟩))) :=
  C2_max_kv_tokens_bound ⟨1, ⟨2, 2⟩⟩ ⟨121, 24, 300⟩ ⟨7, 4096, 32, 32, 32, 16384⟩
    (1 / 2048) 20480
    (by
      simp [PerformanceCalculator.kv_cache_size_per_token_gib, pydiv, BYTES_IN_GiB]
      norm_num)
    (by
      simp [PerformanceCalculator.max_kv_tokens,
        PerformanceCalculator.kv_cache_size_per_token_gib,
        PerformanceCalculator.weights_memory_gb, pydiv, BYTES_IN_GiB, int_trunc]
      norm_num)

/-- Claim C3: `compute_metrics` sets every timing/throughput field to the
OOM sentinel if and only if the raw prefill time or the raw TPOT is
negative; in both cases the `kv_cache_tokens` field still holds
`max_kv_tokens`. -/
theorem C3_oom_iff_negative_timing (c : PerformanceCalculator) (m : ModelSpec)
    (gpu : GPUSpec) (pt rt : ℤ) (pm : PerformanceMetrics) (p t : ℚ) (k : ℤ)
    (hpm : c.compute_metrics m gpu pt rt = some pm)
    (hp : c.prefill_time_per_token_ms m gpu = some p)
    (ht : c.tpot_ms m gpu = some t)
    (hk : c.max_kv_tokens gpu m = some k) :
    ((pm.prefill_time_per_token_ms = MetricValue.OOM ∧
      pm.tpot_ms = MetricValue.OOM ∧
      pm.ttft_s = MetricValue.OOM ∧
      pm.e2e_latency_s = MetricValue.OOM ∧
      pm.throughput_tokens_per_s = MetricValue.OOM) ↔ (p < 0 ∨ t < 0)) ∧
    pm.kv_cache_tokens = k := by
  simp only [PerformanceCalculator.compute_metrics, hk, hp, ht, Option.bind_eq_bind,
    Option.some_bind] at hpm
  by_cases hcond : p < 0 ∨ t < 0
  · rw [if_pos hcond] at hpm
    simp only [pure, Option.some_inj] at hpm
    subst hpm
    simp [hcond]
  · rw [if_neg hcond] at hpm
    simp only [pure, Option.some_inj] at hpm
    subst hpm
    simp [hcond]

/-- Witness for C3 at Scenario A/B, where no timing value is negative. -/
theorem C3_witness :
    ((MetricValue.num ((14 : ℚ) / 121) = MetricValue.OOM ∧
      MetricValue.num ((140 : ℚ) / 3) = MetricValue.OOM ∧
      MetricValue.num ((47243 : ℚ) / 90750) = MetricValue.OOM ∧
      MetricValue.num ((563584 : ℚ) / 45375) = MetricValue.OOM ∧
      MetricValue.num ((90750 : ℚ) / 4403) = MetricValue.OOM) ↔
     ((14 : ℚ) / 121 < 0 ∨ (140 : ℚ) / 3 < 0)) ∧
    (20480 : ℤ) = 20480 :=
  C3_oom_iff_negative_timing ⟨1, ⟨2, 2⟩⟩ ⟨7, 4096, 32, 32, 32, 16384⟩ ⟨121, 24, 300⟩
    4096 256
    ⟨20480, MetricValue.num (14 / 121), MetricValue.num (140 / 3),
      MetricValue.num (47243 / 90750), MetricValue.num (563584 / 45375),
      MetricValue.num (90750 / 4403)⟩
    (14 / 121) (140 / 3) 20480
    (by norm_num [PerformanceCalculator.compute_metrics,
      PerformanceCalculator.max_kv_tokens,
      PerformanceCalculator.kv_cache_size_per_token_gib,
      PerformanceCalculator.weights_memory_gb,
      PerformanceCalculator.prefill_time_per_token_ms, PerformanceCalculator.tpot_ms,
      PerformanceCalculator.ttft_s, PerformanceCalculator.e2e_latency_s,
      pydiv, BYTES_IN_GiB, int_trunc])
    (by norm_num [PerformanceCalculator.prefill_time_per_token_ms, pydiv])
    (by norm_num [PerformanceCalculator.tpot_ms, pydiv])
    (by norm_num [PerformanceCalculator.max_kv_tokens,
      PerformanceCalculator.kv_cache_size_per_token_gib,
      PerformanceCalculator.weights_memory_gb, pydiv, BYTES_IN_GiB, int_trunc])

/-- Closed form of the per-token prefill time when `fp16_tflops` is nonzero. -/
theorem prefill_eq (c : PerformanceCalculator) (m : ModelSpec) (gpu : GPUSpec)
    (h : gpu.fp16_tflops ≠ 0) :
    c.prefill_time_per_token_ms m gpu =
      some (2 * m.params_billion / ((max 1 c.num_gpu : ℤ) : ℚ) / gpu.fp16_tflops) := by
  have h2 : (1 : ℚ) ⊔ ((c.num_gpu : ℤ) : ℚ) ≠ 0 :=
    ne_of_gt (lt_of_lt_of_le zero_lt_one (le_max_left 1 _))
  simp [PerformanceCalculator.prefill_time_per_token_ms, pydiv, h2, h]

/-- Closed form of the time per output token; both of its divisors are guarded, so it never raises. -/
theorem tpot_eq (c : PerformanceCalculator) (m : ModelSpec) (gpu : GPUSpec) :
    c.tpot_ms m gpu =
      some (2 * m.params_billion / ((max 1 c.num_gpu : ℤ) : ℚ) /
        max (1 / 1000000000) ((gpu.memory_bandwidth_gbps : ℤ) : ℚ) * 1000) := by
  have h2 : (1 : ℚ) ⊔ ((c.num_gpu : ℤ) : ℚ) ≠ 0 :=
    ne_of_gt (lt_of_lt_of_le zero_lt_one (le_max_left 1 _))
  have h3 : ((1000000000 : ℚ))⁻¹ ⊔ ((gpu.memory_bandwidth_gbps : ℤ) : ℚ) ≠ 0 :=
    ne_of_gt (lt_of_lt_of_le (by norm_num) (le_max_left _ _))
  simp [PerformanceCalculator.tpot_ms, pydiv, h2, h3]

/-- Claim C4, counterexample: with `n_heads = 0` the per-head dimension
`d_model / n_heads` raises `ZeroDivisionError` in
`kv_cache_size_per_token_gib`, and with `fp16_tflops = 0` the unguarded
division in `prefill_time_per_token_ms` raises as well — both are
well-typed finite numeric inputs, so an error branch is reachable. -/
theorem C4_counterexample :
    PerformanceCalculator.kv_cache_size_per_token_gib ⟨1, ⟨2, 2⟩⟩
      ⟨7, 4096, 0, 32, 32, 16384⟩ = none ∧
    PerformanceCalculator.prefill_time_per_token_ms ⟨1, ⟨2, 2⟩⟩
      ⟨7, 4096, 32, 32, 32, 16384⟩ ⟨0, 24, 300⟩ = none := by
  constructor
  · simp [PerformanceCalculator.kv_cache_size_per_token_gib, pydiv]
  · simp [PerformanceCalculator.prefill_time_per_token_ms, pydiv]

/-- Claim C4, amended: every core operation returns a value — no error
branch is reachable — for every well-typed numeric input with
`n_heads ≠ 0` and `fp16_tflops ≠ 0` (the two unguarded divisions); all
other divisions are guarded. -/
theorem C4_total_on_nonzero_heads_tflops (c : PerformanceCalculator) (m : ModelSpec)
    (gpu : GPUSpec) (pt rt nc cw : ℤ)
    (h1 : m.n_heads ≠ 0) (h2 : gpu.fp16_tflops ≠ 0) :
    (c.kv_cache_size_per_token_gib m).isSome = true ∧
    (c.total_memory_footprint_gb m nc cw).isSome = true ∧
    (c.max_kv_tokens gpu m).isSome = true ∧
    (c.fits_memory gpu m nc cw).isSome = true ∧
    (c.prefill_time_per_token_ms m gpu).isSome = true ∧
    (c.tpot_ms m gpu).isSome = true ∧
    (c.compute_metrics m gpu pt rt).isSome = true := by
  have hkv := kv_cache_eq_of_heads_ne_zero c m h1
  have hfoot := footprint_eq c m nc cw _ hkv
  have hmaxkv : (c.max_kv_tokens gpu m).isSome = true := by
    simp only [PerformanceCalculator.max_kv_tokens, hkv, Option.bind_eq_bind,
      Option.some_bind]
    split <;> simp [pure]
  obtain ⟨k, hk⟩ := Option.isSome_iff_exists.mp hmaxkv
  have hpre := prefill_eq c m gpu h2
  have htp := tpot_eq c m gpu
  refine ⟨by simp [hkv], by simp [hfoot], hmaxkv, ?_, by simp [hpre], by simp [htp], ?_⟩
  · simp [PerformanceCalculator.fits_memory, hfoot]
  · simp only [PerformanceCalculator.compute_metrics, hk, hpre, htp,
      Option.bind_eq_bind, Option.some_bind]
    split <;> simp [pure]

/-- Witness for the amended C4 at Scenario A, where `n_heads = 32` and `fp16_tflops = 121`. -/
theorem C4_witness :
    ((PerformanceCalculator.kv_cache_size_per_token_gib ⟨1, ⟨2, 2⟩⟩
        ⟨7, 4096, 32, 32, 32, 16384⟩).isSome = true ∧
     (PerformanceCalculator.total_memory_footprint_gb ⟨1, ⟨2, 2⟩⟩
        ⟨7, 4096, 32, 32, 32, 16384⟩ 1 4096).isSome = true ∧
     (PerformanceCalculator.max_kv_tokens ⟨1, ⟨2, 2⟩⟩ ⟨121, 24, 300⟩
        ⟨7, 4096, 32, 32, 32, 16384⟩).isSome = true ∧
     (PerformanceCalculator.fits_memory ⟨1, ⟨2, 2⟩⟩ ⟨121, 24, 300⟩
        ⟨7, 4096, 32, 32, 32, 16384⟩ 1 4096).isSome = true ∧
     (PerformanceCalculator.prefill_time_per_token_ms ⟨1, ⟨2, 2⟩⟩
        ⟨7, 4096, 32, 32, 32, 16384⟩ ⟨121, 24, 300⟩).isSome = true ∧
     (PerformanceCalculator.tpot_ms ⟨1, ⟨2, 2⟩⟩
        ⟨7, 4096, 32, 32, 32, 16384⟩ ⟨121, 24, 300⟩).isSome = true ∧
     (PerformanceCalculator.compute_metrics ⟨1, ⟨2, 2⟩⟩
        ⟨7, 4096, 32, 32, 32, 16384⟩ ⟨121, 24, 300⟩ 4096 256).isSome = true) :=
  C4_total_on_nonzero_heads_tflops ⟨1, ⟨2, 2⟩⟩ ⟨7, 4096, 32, 32, 32, 16384⟩
    ⟨121, 24, 300⟩ 4096 256 1 4096 (by norm_num) (by norm_num)

/-- Claim C5: in Scenario A/B (7B model, `d_model=4096`, 32 heads and KV
heads, 32 layers, FP16 weights and cache, one 24 GB GPU with 121 TFLOPs
and 300 GB/s, prompt 4096, response 256) the engine yields exactly
`weights = 14`, `kv_per_token = 524288/2^30`, `prefill = 14/121 ≈ 0.1157`,
`tpot = 140/3 ≈ 46.667`, `ttft ≈ 0.5206`, `e2e ≈ 12.42`,
`throughput ≈ 20.6`, each within the stated tolerance of the figures
quoted in the specification. -/
theorem C5_scenario_values :
    PerformanceCalculator.weights_memory_gb ⟨1, ⟨2, 2⟩⟩
      ⟨7, 4096, 32, 32, 32, 16384⟩ = 14 ∧
    PerformanceCalculator.kv_cache_size_per_token_gib ⟨1, ⟨2, 2⟩⟩
      ⟨7, 4096, 32, 32, 32, 16384⟩ = some (524288 / 1073741824) ∧
    |(524288 : ℚ) / 1073741824 - 4883 / 10000000| < 1 / 10000000 ∧
    PerformanceCalculator.prefill_time_per_token_ms ⟨1, ⟨2, 2⟩⟩
      ⟨7, 4096, 32, 32, 32, 16384⟩ ⟨121, 24, 300⟩ = some (14 / 121) ∧
    |(14 : ℚ) / 121 - 1157 / 10000| < 1 / 10000 ∧
    PerformanceCalculator.tpot_ms ⟨1, ⟨2, 2⟩⟩
      ⟨7, 4096, 32, 32, 32, 16384⟩ ⟨121, 24, 300⟩ = some (140 / 3) ∧
    |(140 : ℚ) / 3 - 46667 / 1000| < 1 / 1000 ∧
    PerformanceCalculator.ttft_s (14 / 121) (140 / 3) 4096 = 47243 / 90750 ∧
    |(47243 : ℚ) / 90750 - 5206 / 10000| < 1 / 10000 ∧
    PerformanceCalculator.e2e_latency_s (14 / 121) (140 / 3) 4096 256 =
      563584 / 45375 ∧
    |(563584 : ℚ) / 45375 - 12423 / 1000| < 5 / 1000 ∧
    PerformanceCalculator.compute_metrics ⟨1, ⟨2, 2⟩⟩ ⟨7, 4096, 32, 32, 32, 16384⟩
      ⟨121, 24, 300⟩ 4096 256 =
      some ⟨20480, MetricValue.num (14 / 121), MetricValue.num (140 / 3),
        MetricValue.num (47243 / 90750), MetricValue.num (563584 / 45375),
        MetricValue.num (90750 / 4403)⟩ ∧
    |(90750 : ℚ) / 4403 - 206 / 10| < 5 / 100 := by
  refine ⟨?_, ?_, by rw [abs_lt]; norm_num, ?_, by rw [abs_lt]; norm_num, ?_,
    by rw [abs_lt]; norm_num, ?_, by rw [abs_lt]; norm_num, ?_,
    by rw [abs_lt]; norm_num, ?_, by rw [abs_lt]; norm_num⟩
  · norm_num [PerformanceCalculator.weights_memory_gb]
  · norm_num [PerformanceCalculator.kv_cache_size_per_token_gib, pydiv, BYTES_IN_GiB]
  · norm_num [PerformanceCalculator.prefill_time_per_token_ms, pydiv]
  · norm_num [PerformanceCalculator.tpot_ms, pydiv]
  · norm_num [PerformanceCalculator.ttft_s]
  · norm_num [PerformanceCalculator.e2e_latency_s]
  · norm_num [PerformanceCalculator.compute_metrics, PerformanceCalculator.max_kv_tokens,
      PerformanceCalculator.kv_cache_size_per_token_gib,
      PerformanceCalculator.weights_memory_gb,
      PerformanceCalculator.prefill_time_per_token_ms, PerformanceCalculator.tpot_ms,
      PerformanceCalculator.ttft_s, PerformanceCalculator.e2e_latency_s,
      pydiv, BYTES_IN_GiB, int_trunc]

/-- Claim C6: when the raw prefill time and TPOT are both non-negative,
the throughput field of `compute_metrics` equals
`response_tokens / e2e_latency_s` when `e2e_latency_s > 0`, and is the OOM
sentinel when `e2e_latency_s ≤ 0` while the other timing fields remain
numeric. -/
theorem C6_throughput_field (c : PerformanceCalculator) (m : ModelSpec) (gpu : GPUSpec)
    (pt rt : ℤ) (pm : PerformanceMetrics) (p t : ℚ)
    (hp : c.prefill_time_per_token_ms m gpu = some p)
    (ht : c.tpot_ms m gpu = some t)
    (hp0 : 0 ≤ p) (ht0 : 0 ≤ t)
    (hpm : c.compute_metrics m gpu pt rt = some pm) :
    (0 < PerformanceCalculator.e2e_latency_s p t pt rt →
      pm.throughput_tokens_per_s =
        MetricValue.num ((rt : ℚ) / PerformanceCalculator.e2e_latency_s p t pt rt)) ∧
    (PerformanceCalculator.e2e_latency_s p t pt rt ≤ 0 →
      pm.throughput_tokens_per_s = MetricValue.OOM ∧
      pm.prefill_time_per_token_ms = MetricValue.num p ∧
      pm.tpot_ms = MetricValue.num t ∧
      pm.ttft_s = MetricValue.num (PerformanceCalculator.ttft_s p t pt) ∧
      pm.e2e_latency_s =
        MetricValue.num (PerformanceCalculator.e2e_latency_s p t pt rt)) := by
  rcases hk : c.max_kv_tokens gpu m with _ | k
  · simp [PerformanceCalculator.compute_metrics, hk] at hpm
  · simp only [PerformanceCalculator.compute_metrics, hk, hp, ht, Option.bind_eq_bind,
      Option.some_bind] at hpm
    have hcond : ¬(p < 0 ∨ t < 0) := by
      push_neg
      exact ⟨hp0, ht0⟩
    rw [if_neg hcond] at hpm
    simp only [pure, Option.some_inj] at hpm
    subst hpm
    constructor
    · intro hpos
      simp [if_pos hpos]
    · intro hle
      simp [if_neg (not_lt.mpr hle)]

/-- Witness for C6 at Scenario A/B, where `e2e_latency_s > 0`. -/
theorem C6_witness :
    (0 < PerformanceCalculator.e2e_latency_s (14 / 121) (140 / 3) 4096 256 →
      MetricValue.num ((90750 : ℚ) / 4403) =
        MetricValue.num (((256 : ℤ) : ℚ) /
          PerformanceCalculator.e2e_latency_s (14 / 121) (140 / 3) 4096 256)) ∧
    (PerformanceCalculator.e2e_latency_s (14 / 121) (140 / 3) 4096 256 ≤ 0 →
      MetricValue.num ((90750 : ℚ) / 4403) = MetricValue.OOM ∧
      MetricValue.num ((14 : ℚ) / 121) = MetricValue.num (14 / 121) ∧
      MetricValue.num ((140 : ℚ) / 3) = MetricValue.num (140 / 3) ∧
      MetricValue.num ((47243 : ℚ) / 90750) =
        MetricValue.num (PerformanceCalculator.ttft_s (14 / 121) (140 / 3) 4096) ∧
      MetricValue.num ((563584 : ℚ) / 45375) =
        MetricValue.num
          (PerformanceCalculator.e2e_latency_s (14 / 121) (140 / 3) 4096 256)) :=
  C6_throughput_field ⟨1, ⟨2, 2⟩⟩ ⟨7, 4096, 32, 32, 32, 16384⟩ ⟨121, 24, 300⟩
    4096 256
    ⟨20480, MetricValue.num (14 / 121), MetricValue.num (140 / 3),
      MetricValue.num (47243 / 90750), MetricValue.num (563584 / 45375),
      MetricValue.num (90750 / 4403)⟩
    (14 / 121) (140 / 3)
    (by norm_num [PerformanceCalculator.prefill_time_per_token_ms, pydiv])
    (by norm_num [PerformanceCalculator.tpot_ms, pydiv])
    (by norm_num) (by norm_num)
    (by norm_num [PerformanceCalculator.compute_metrics,
      PerformanceCalculator.max_kv_tokens,
      PerformanceCalculator.kv_cache_size_per_token_gib,
      PerformanceCalculator.weights_memory_gb,
      PerformanceCalculator.prefill_time_per_token_ms, PerformanceCalculator.tpot_ms,
      PerformanceCalculator.ttft_s, PerformanceCalculator.e2e_latency_s,
      pydiv, BYTES_IN_GiB, int_trunc])

/-- Claim C7: calling the timing formulas with `num_gpu = 0` hits no
division-by-zero fault: `prefill_time_per_token_ms` and `tpot_ms` return
exactly the same values as with `num_gpu = 1` (the `max(1, num_gpu)`
guard), and the guarded `tpot_ms` always returns a value. -/
theorem C7_num_gpu_zero_as_one (p : PrecisionSpec) (m : ModelSpec) (gpu : GPUSpec) :
    PerformanceCalculator.prefill_time_per_token_ms ⟨0, p⟩ m gpu =
      PerformanceCalculator.prefill_time_per_token_ms ⟨1, p⟩ m gpu ∧
    PerformanceCalculator.tpot_ms ⟨0, p⟩ m gpu =
      PerformanceCalculator.tpot_ms ⟨1, p⟩ m gpu ∧
    (PerformanceCalculator.tpot_ms ⟨0, p⟩ m gpu).isSome = true := by
  refine ⟨?_, ?_, ?_⟩
  · norm_num [PerformanceCalculator.prefill_time_per_token_ms]
  · norm_num [PerformanceCalculator.tpot_ms]
  · simp [tpot_eq]

/-- Claim C8: for a model with positive `n_layers`, `d_model`, `n_heads`
and `n_kv_heads = n_heads`, the per-token KV-cache size is monotonically
non-decreasing in `kv_bytes` (precision configurations differing only in
`kv_bytes`). -/
theorem C8_kv_monotone_in_kv_bytes (m : ModelSpec) (n : ℤ) (wb kb1 kb2 v1 v2 : ℚ)
    (hL : 0 < m.n_layers) (hd : 0 < m.d_model) (hh : 0 < m.n_heads)
    (hkvh : m.n_kv_heads = m.n_heads) (hkb : kb1 ≤ kb2)
    (h1 : PerformanceCalculator.kv_cache_size_per_token_gib ⟨n, ⟨wb, kb1⟩⟩ m = some v1)
    (h2 : PerformanceCalculator.kv_cache_size_per_token_gib ⟨n, ⟨wb, kb2⟩⟩ m = some v2) :
    v1 ≤ v2 := by
  rw [kv_cache_eq_of_heads_ne_zero _ _ (ne_of_gt hh), Option.some_inj] at h1 h2
  subst h1
  subst h2
  have hdh : (0 : ℚ) ≤ (m.d_model : ℚ) / (m.n_heads : ℚ) :=
    div_nonneg (by exact_mod_cast hd.le) (by exact_mod_cast hh.le)
  have hbase : (0 : ℚ) ≤ 2 * (m.n_layers : ℚ) * (m.n_kv_heads : ℚ) *
      ((m.d_model : ℚ) / (m.n_heads : ℚ)) := by
    have hL' : (0 : ℚ) ≤ (m.n_layers : ℚ) := by exact_mod_cast hL.le
    have hKV' : (0 : ℚ) ≤ (m.n_kv_heads : ℚ) := by
      rw [hkvh]
      exact_mod_cast hh.le
    have h2L : (0 : ℚ) ≤ 2 * (m.n_layers : ℚ) := by linarith
    exact mul_nonneg (mul_nonneg h2L hKV') hdh
  have hB : (0 : ℚ) < BYTES_IN_GiB := by norm_num [BYTES_IN_GiB]
  exact div_le_div_of_nonneg_right (mul_le_mul_of_nonneg_left hkb hbase) hB.le

/-- Witness for C8 on the Scenario A architecture with `kv_bytes` 1 versus 2. -/
theorem C8_witness : (1 : ℚ) / 4096 ≤ 1 / 2048 :=
  C8_kv_monotone_in_kv_bytes ⟨7, 4096, 32, 32, 32, 16384⟩ 1 2 1 2
    (1 / 4096) (1 / 2048)
    (by norm_num) (by norm_num) (by norm_num) rfl (by norm_num)
    (by norm_num [PerformanceCalculator.kv_cache_size_per_token_gib, pydiv,
      BYTES_IN_GiB])
    (by norm_num [PerformanceCalculator.kv_cache_size_per_token_gib, pydiv,
      BYTES_IN_GiB])

/-- Claim C9: `fits_memory` is antitone in the workload: with non-negative
architecture fields, positive `n_heads` and non-negative `kv_bytes`, if a
configuration fits at concurrency `nc` and context window `cw`, it also
fits at any smaller non-negative `nc2 ≤ nc` and `cw2 ≤ cw`, because the
total memory footprint is monotone in both workload parameters. -/
theorem C9_fits_memory_antitone (c : PerformanceCalculator) (gpu : GPUSpec)
    (m : ModelSpec) (nc cw nc2 cw2 : ℤ)
    (hL : 0 ≤ m.n_layers) (hKV : 0 ≤ m.n_kv_heads) (hd : 0 ≤ m.d_model)
    (hh : 0 < m.n_heads) (hkb : 0 ≤ c.precision.kv_bytes)
    (hnc2 : 0 ≤ nc2) (hnc : nc2 ≤ nc) (hcw2 : 0 ≤ cw2) (hcw : cw2 ≤ cw)
    (hfits : c.fits_memory gpu m nc cw = some true) :
    c.fits_memory gpu m nc2 cw2 = some true := by
  have hkveq := kv_cache_eq_of_heads_ne_zero c m (ne_of_gt hh)
  have hfoot := footprint_eq c m nc cw _ hkveq
  have hfoot2 := footprint_eq c m nc2 cw2 _ hkveq
  set v : ℚ := 2 * (m.n_layers : ℚ) * (m.n_kv_heads : ℚ) *
    ((m.d_model : ℚ) / (m.n_heads : ℚ)) * c.precision.kv_bytes / BYTES_IN_GiB with hv
  have hvnonneg : 0 ≤ v := by
    have hdh : (0 : ℚ) ≤ (m.d_model : ℚ) / (m.n_heads : ℚ) :=
      div_nonneg (by exact_mod_cast hd) (by exact_mod_cast hh.le)
    have hL' : (0 : ℚ) ≤ (m.n_layers : ℚ) := by exact_mod_cast hL
    have hKV' : (0 : ℚ) ≤ (m.n_kv_heads : ℚ) := by exact_mod_cast hKV
    have h2L : (0 : ℚ) ≤ 2 * (m.n_layers : ℚ) := by linarith
    have hB : (0 : ℚ) < BYTES_IN_GiB := by norm_num [BYTES_IN_GiB]
    rw [hv]
    exact div_nonneg
      (mul_nonneg (mul_nonneg (mul_nonneg h2L hKV') hdh) hkb) hB.le
  simp only [PerformanceCalculator.fits_memory, hfoot, Option.bind_eq_bind,
    Option.some_bind, Option.pure_def, Option.some_inj, decide_eq_true_eq] at hfits
  simp only [PerformanceCalculator.fits_memory, hfoot2, Option.bind_eq_bind,
    Option.some_bind, Option.pure_def, Option.some_inj, decide_eq_true_eq]
  have hcw' : (0 : ℚ) ≤ (cw : ℚ) := by exact_mod_cast le_trans hcw2 hcw
  have hkey : v * (cw2 : ℚ) * (nc2 : ℚ) ≤ v * (cw : ℚ) * (nc : ℚ) :=
    mul_le_mul (mul_le_mul_of_nonneg_left (by exact_mod_cast hcw) hvnonneg)
      (by exact_mod_cast hnc) (by exact_mod_cast hnc2)
      (mul_nonneg hvnonneg hcw')
  linarith

/-- Witness for C9: Scenario A fits at window 4096, hence also at window 1024. -/
theorem C9_witness :
    PerformanceCalculator.fits_memory ⟨1, ⟨2, 2⟩⟩ ⟨121, 24, 300⟩
      ⟨7, 4096, 32, 32, 32, 16384⟩ 1 1024 = some true :=
  C9_fits_memory_antitone ⟨1, ⟨2, 2⟩⟩ ⟨121, 24, 300⟩ ⟨7, 4096, 32, 32, 32, 16384⟩
    1 4096 1 1024
    (by norm_num) (by norm_num) (by norm_num) (by norm_num) (by norm_num)
    (by norm_num) (by norm_num) (by norm_num) (by norm_num)
    (by norm_num [PerformanceCalculator.fits_memory,
      PerformanceCalculator.total_memory_footprint_gb,
      PerformanceCalculator.kv_cache_size_per_token_gib,
      PerformanceCalculator.weights_memory_gb, pydiv, BYTES_IN_GiB])

/-- Claim C10: the timing estimates are independent of the precision
configuration: two calculators with the same `num_gpu` and arbitrary
different `PrecisionSpec` values return identical
`prefill_time_per_token_ms` and `tpot_ms`. -/
theorem C10_timing_ignores_precision (n : ℤ) (p1 p2 : PrecisionSpec) (m : ModelSpec)
    (gpu : GPUSpec) :
    PerformanceCalculator.prefill_time_per_token_ms ⟨n, p1⟩ m gpu =
      PerformanceCalculator.prefill_time_per_token_ms ⟨n, p2⟩ m gpu ∧
    PerformanceCalculator.tpot_ms ⟨n, p1⟩ m gpu =
      PerformanceCalculator.tpot_ms ⟨n, p2⟩ m gpu :=
  ⟨rfl, rfl⟩

end LLMSizer
